import Mathlib

/-!
Shallow embedding of the Deployment Orchestration and Repository Automation
Engine of `src/DevOps_Robot.py` (class `AIDevOpsRobot`), together with proofs
of the specification claims about it.

Modelling conventions:
* Every HTTP request the Python code performs through the `requests` library
  is recorded as an `Event.http` carrying the request URL and the `timeout`
  argument passed at the call site (`none` when the call site passes no
  `timeout` keyword, which is how every call in the source is written).
* The outcome of each external interaction (filesystem, `git` subprocesses,
  HTTP responses) is supplied by an environment record `RepoEnv`; a
  transport-level failure of an HTTP request (`requests.RequestException`)
  is `Except.error`, a completed response is `Except.ok status_code`.
* A Python function that can let an exception escape is embedded with result
  type `Except String _`; a raised, uncaught exception is `Except.error`.
  Functions also return the `List Event` trace of the external actions they
  performed before returning or raising.
* Python truthiness of optional strings (`None` and `""` are falsy) is
  `truthyS`; of optional booleans (`cfg.get("enabled")`) it is `truthyB`.
  The empty-string failure sentinel returned by `clone_repository` is
  modelled as `Option.none`.
-/

/-- One outbound HTTP request: the URL it targets and the `timeout` argument
given at the `requests` call site (`none` = no timeout passed). -/
structure HttpCall where
  url : String
  timeout : Option Nat
deriving DecidableEq

/-- Observable external actions performed by the engine. -/
inductive Event where
  | cloneAttempt (repo : String)
  | fileWrite (path : String)
  | commitPush (ok : Bool)
  | http (call : HttpCall)
  | fanOut (repo : String)
  | info (msg : String)
deriving DecidableEq

/-- `hosting_platforms.vercel` block of the YAML config. -/
structure VercelCfg where
  enabled : Option Bool
  deploy_hook_url : Option String
deriving DecidableEq

/-- `hosting_platforms.render` block of the YAML config. -/
structure RenderCfg where
  enabled : Option Bool
  service_id : Option String
deriving DecidableEq

/-- `hosting_platforms.netlify` block of the YAML config. -/
structure NetlifyCfg where
  enabled : Option Bool
  deploy_hook_url : Option String
deriving DecidableEq

/-- `hosting_platforms` mapping of the YAML config. -/
structure HostingPlatforms where
  vercel : VercelCfg
  render : RenderCfg
  netlify : NetlifyCfg
deriving DecidableEq

/-- The recognized configuration keys read by the orchestration core. -/
structure Config where
  hosting_platforms : HostingPlatforms
  auto_deploy : Option Bool
  default_branch : Option String
deriving DecidableEq

/-- The robot's identity and configuration (`AIDevOpsRobot.__init__`):
`github_token`/`github_username` from the environment or config, plus the
`RENDER_TOKEN` environment variable read by `deploy_to_render`. -/
structure Robot where
  github_token : Option String
  github_username : String
  config : Config
  render_token : Option String
deriving DecidableEq

/-- One changed file of a pull request as returned by the PR-files listing:
its name, its textual diff (the source normalizes a missing patch with
`file.get("patch", "") or ""`), and its addition count. -/
structure PrFile where
  filename : String
  patch : String
  additions : Nat
deriving DecidableEq

/-- Outcomes of the external world for one repository's processing: does the
local working-copy directory exist, does `git clone` succeed, do the staged
`git add`/`commit`/`push` steps succeed, and the outcome of each HTTP request
(`Except.error` = transport-level exception raised by `requests`;
`repoInfoHttp` carries the repository descriptor's optional `default_branch`
field, `prFilesHttp` the PR-files listing). -/
structure RepoEnv where
  pathExists : Bool
  cloneOk : Bool
  commitPushOk : Bool
  vercelHttp : Except String Nat
  renderHttp : Except String Nat
  netlifyHttp : Except String Nat
  contentsHttp : Except String (Nat × List String)
  createHttp : Except String Nat
  prCreateHttp : Except String Nat
  prMergeHttp : Except String Nat
  runsHttp : Except String Nat
  reposHttp : Except String Nat
  repoInfoHttp : Except String (Nat × Option String)
  prFilesHttp : Except String (Nat × List PrFile)

/-- Python truthiness of an optional string: `None` and `""` are falsy. -/
def truthyS (s : Option String) : Bool :=
  match s with
  | none => false
  | some t => !t.data.isEmpty

/-- Python truthiness of an optional boolean (`cfg.get("enabled")`):
a missing key is falsy. -/
def truthyB (b : Option Bool) : Bool :=
  b.getD false

/-- Python `a or b` on optional strings (used for
`service_id = service_id or cfg.get("service_id")`). -/
def pyOrS (a b : Option String) : Option String :=
  if truthyS a then a else b

/-- The accepted deploy-hook response codes: `res.status_code in (200, 201, 202)`. -/
def accepted (code : Nat) : Bool :=
  code == 200 || code == 201 || code == 202

/-- Decidable equality for `Except` results, used to evaluate concrete runs. -/
instance {E A : Type} [DecidableEq E] [DecidableEq A] : DecidableEq (Except E A) :=
  fun a b =>
    match a, b with
    | Except.error e1, Except.error e2 =>
      if h : e1 = e2 then isTrue (h ▸ rfl)
      else isFalse (fun hh => h (Except.error.inj hh))
    | Except.error _, Except.ok _ => isFalse (fun hh => Except.noConfusion hh)
    | Except.ok _, Except.error _ => isFalse (fun hh => Except.noConfusion hh)
    | Except.ok a1, Except.ok a2 =>
      if h : a1 = a2 then isTrue (h ▸ rfl)
      else isFalse (fun hh => h (Except.ok.inj hh))

/-- Did the HTTP interaction complete without a transport-level exception? -/
def httpOk (e : Except String Nat) : Bool :=
  match e with
  | Except.ok _ => true
  | Except.error _ => false

/-- `deploy_to_vercel` (source lines 220-238). Checks `enabled`, then the
hook URL, then posts to the hook inside `try/except requests.RequestException`:
a transport error is caught and yields `false`. Never raises. -/
def deploy_to_vercel (r : Robot) (env : RepoEnv) (_repo_name : String) :
    List Event × Bool :=
  let cfg := r.config.hosting_platforms.vercel
  if !truthyB cfg.enabled then ([], false)
  else if !truthyS cfg.deploy_hook_url then ([], false)
  else
    let call : HttpCall := { url := cfg.deploy_hook_url.getD "", timeout := none }
    match env.vercelHttp with
    | Except.ok code => ([Event.http call], accepted code)
    | Except.error _ => ([Event.http call], false)

/-- `deploy_to_render` (source lines 240-260). Checks `enabled`, the
`RENDER_TOKEN` environment variable, and the service id
(`service_id or cfg.get("service_id")`), then posts to the Render API.
The post is NOT wrapped in `try/except`: a transport error raises out of the
function (`Except.error`). -/
def deploy_to_render (service_id : Option String) (r : Robot) (env : RepoEnv) :
    List Event × Except String Bool :=
  let cfg := r.config.hosting_platforms.render
  if !truthyB cfg.enabled then ([], Except.ok false)
  else if !truthyS r.render_token then ([], Except.ok false)
  else
    let sid := pyOrS service_id cfg.service_id
    if !truthyS sid then ([], Except.ok false)
    else
      let call : HttpCall :=
        { url := "https://api.render.com/v1/services/" ++ sid.getD "" ++ "/deploys",
          timeout := none }
      match env.renderHttp with
      | Except.ok code => ([Event.http call], Except.ok (accepted code))
      | Except.error e => ([Event.http call], Except.error e)

/-- `deploy_to_netlify` (source lines 262-280). Checks `enabled`; if the hook
URL is truthy, posts to it inside `try/except requests.RequestException`
(transport error caught, yields `false`); otherwise reports the missing hook
and returns `false`. Never raises. -/
def deploy_to_netlify (r : Robot) (env : RepoEnv) : List Event × Bool :=
  let cfg := r.config.hosting_platforms.netlify
  if !truthyB cfg.enabled then ([], false)
  else if truthyS cfg.deploy_hook_url then
    let call : HttpCall := { url := cfg.deploy_hook_url.getD "", timeout := none }
    match env.netlifyHttp with
    | Except.ok code => ([Event.http call], accepted code)
    | Except.error _ => ([Event.http call], false)
  else ([], false)

/-- The informational message printed by `trigger_all_deployments` when no
deployment was triggered. -/
def noDeployMsg : String := "No deployments triggered (check config)."

/-- The value `trigger_all_deployments` computes and the value it returns:
`ok_any` is the function's local aggregate variable; `retVal` is the value
returned to the caller — the Python function has no `return` statement, so
this is always `none` (Python `None`). -/
structure TriggerResult where
  ok_any : Bool
  retVal : Option Bool
deriving DecidableEq

/-- `trigger_all_deployments` (source lines 307-317): for each platform whose
`enabled` flag is truthy, invoke its adapter and OR the result into `ok_any`
(Render is passed the configured `service_id` and may raise, which propagates
out of this function); if `ok_any` is falsy at the end, print the
informational no-deployments message. The function returns `None`. -/
def trigger_all_deployments (r : Robot) (env : RepoEnv) (repo_name : String) :
    List Event × Except String TriggerResult :=
  let ps := r.config.hosting_platforms
  let v := if truthyB ps.vercel.enabled
           then deploy_to_vercel r env repo_name else ([], false)
  match (if truthyB ps.render.enabled
         then deploy_to_render ps.render.service_id r env
         else ([], Except.ok false)) with
  | (ev2, Except.error e) => (v.1 ++ ev2, Except.error e)
  | (ev2, Except.ok ok2) =>
    let n := if truthyB ps.netlify.enabled
             then deploy_to_netlify r env else ([], false)
    let okAny := v.2 || ok2 || n.2
    let evInfo := if !okAny then [Event.info noDeployMsg] else []
    (v.1 ++ ev2 ++ n.1 ++ evInfo, Except.ok { ok_any := okAny, retVal := none })

/-- `clone_repository` (source lines 154-164): runs `git clone` once; on
success returns the local path `./repo_name`, on failure (non-zero exit,
caught) returns the empty string, modelled as `none`. -/
def clone_repository (env : RepoEnv) (repo_name : String) :
    List Event × Option String :=
  ([Event.cloneAttempt repo_name],
   if env.cloneOk then some ("./" ++ repo_name) else none)

/-- `commit_and_push` (source lines 166-191): ensures a git identity, infers
the branch, then stages, commits and pushes inside `try/except
subprocess.CalledProcessError` — a failing git step is caught and reported,
never raised, and the function returns `None`. The trace records the attempt
and whether the git steps succeeded. -/
def commit_and_push (env : RepoEnv) (_repo_path : String) (_message : Option String) :
    List Event :=
  [Event.commitPush env.commitPushOk]

/-- `auto_workflow_update_and_deploy` (source lines 285-305): resolve a
working copy (reuse `./repo` if the directory exists, else clone once; a
falsy path aborts with `False`), write every file of the mapping, run
`commit_and_push` (whose failures are swallowed), and if
`config.get("auto_deploy", True)` is truthy invoke `trigger_all_deployments`
(the `Event.fanOut` marker records that invocation; an exception it raises
propagates). Otherwise the function returns `True`. -/
def auto_workflow_update_and_deploy (r : Robot) (env : RepoEnv)
    (repo_name : String) (files_to_update : List (String × String)) :
    List Event × Except String Bool :=
  let path0 := "./" ++ repo_name
  let st := if env.pathExists then ([], some path0)
            else clone_repository env repo_name
  match st with
  | (evc, none) => (evc, Except.ok false)
  | (evc, some path) =>
    let evw := files_to_update.map (fun fc => Event.fileWrite fc.1)
    let commit_msg := "🤖 Auto-update: " ++ toString files_to_update.length ++ " files updated"
    let evg := commit_and_push env path (some commit_msg)
    if r.config.auto_deploy.getD true then
      match trigger_all_deployments r env repo_name with
      | (evd, Except.error e) =>
        (evc ++ evw ++ evg ++ [Event.fanOut repo_name] ++ evd, Except.error e)
      | (evd, Except.ok _) =>
        (evc ++ evw ++ evg ++ [Event.fanOut repo_name] ++ evd, Except.ok true)
    else (evc ++ evw ++ evg, Except.ok true)

/-- `create_repository` (source lines 136-152): raises `ValueError` when no
GitHub token is configured, before any network traffic; otherwise posts to
the repository-creation endpoint (no timeout, may raise a transport error)
and returns the created-repository data on 201, an empty dict otherwise
(modelled as the boolean "created"). -/
def create_repository (r : Robot) (env : RepoEnv)
    (_repo_name _description : String) (_priv : Bool) :
    List Event × Except String Bool :=
  if !truthyS r.github_token then
    ([], Except.error "ValueError: Missing GITHUB_TOKEN for GitHub API calls.")
  else
    let call : HttpCall := { url := "https://api.github.com/user/repos", timeout := none }
    match env.createHttp with
    | Except.error e => ([Event.http call], Except.error e)
    | Except.ok code => ([Event.http call], Except.ok (code == 201))

/-- `create_pull_request` (source lines 193-204): raises `ValueError` when no
GitHub token is configured, before any network traffic; otherwise posts to
the pulls endpoint and returns the PR data on 201, an empty dict otherwise. -/
def create_pull_request (r : Robot) (env : RepoEnv) (repo_name : String) :
    List Event × Except String Bool :=
  if !truthyS r.github_token then
    ([], Except.error "ValueError: Missing GITHUB_TOKEN for GitHub API calls.")
  else
    let call : HttpCall :=
      { url := "https://api.github.com/repos/" ++ r.github_username ++ "/" ++
          repo_name ++ "/pulls",
        timeout := none }
    match env.prCreateHttp with
    | Except.error e => ([Event.http call], Except.error e)
    | Except.ok code => ([Event.http call], Except.ok (code == 201))

/-- `merge_pull_request` (source lines 206-215): raises `ValueError` when no
GitHub token is configured, before any network traffic; otherwise puts to the
merge endpoint and returns `True` on 200, `False` otherwise. -/
def merge_pull_request (r : Robot) (env : RepoEnv)
    (repo_name : String) (pr_number : Nat) :
    List Event × Except String Bool :=
  if !truthyS r.github_token then
    ([], Except.error "ValueError: Missing GITHUB_TOKEN for GitHub API calls.")
  else
    let call : HttpCall :=
      { url := "https://api.github.com/repos/" ++ r.github_username ++ "/" ++
          repo_name ++ "/pulls/" ++ toString pr_number ++ "/merge",
        timeout := none }
    match env.prMergeHttp with
    | Except.error e => ([Event.http call], Except.error e)
    | Except.ok code => ([Event.http call], Except.ok (code == 200))

/-- `check_deployment_status` (source lines 478-493): when no GitHub token is
configured, returns the empty status dict with no network traffic; otherwise
gets the workflow-runs listing (the returned status dict is abridged to the
boolean "a 200 response was received", its contents not being claim-relevant). -/
def check_deployment_status (r : Robot) (env : RepoEnv) (repo_name : String) :
    List Event × Except String Bool :=
  if !truthyS r.github_token then ([], Except.ok false)
  else
    let call : HttpCall :=
      { url := "https://api.github.com/repos/" ++ r.github_username ++ "/" ++
          repo_name ++ "/actions/runs",
        timeout := none }
    match env.runsHttp with
    | Except.error e => ([Event.http call], Except.error e)
    | Except.ok code => ([Event.http call], Except.ok (code == 200))

/-- `health_check_all_repos` (source lines 495-513): when no GitHub token is
configured, prints a warning and returns the empty report with no network
traffic; otherwise gets the user-repositories listing (the report contents
are abridged to the boolean "a 200 response was received"). -/
def health_check_all_repos (r : Robot) (env : RepoEnv) :
    List Event × Except String Bool :=
  if !truthyS r.github_token then ([], Except.ok false)
  else
    let call : HttpCall :=
      { url := "https://api.github.com/users/" ++ r.github_username ++ "/repos",
        timeout := none }
    match env.reposHttp with
    | Except.error e => ([Event.http call], Except.error e)
    | Except.ok code => ([Event.http call], Except.ok (code == 200))

/-- `get_default_branch` (source lines 124-131): with a token configured,
gets the repository descriptor (no timeout; a transport error raises) and on
a 200 response returns its `default_branch` field (defaulting to `"main"`);
in every other case falls back to the configured default branch, then
`"main"`. Without a token no request is made. -/
def get_default_branch (r : Robot) (env : RepoEnv) (repo_name : String) :
    List Event × Except String String :=
  if truthyS r.github_token then
    let call : HttpCall :=
      { url := ("https://api.github.com/repos/" ++ r.github_username ++ "/" ++ repo_name),
        timeout := none }
    match env.repoInfoHttp with
    | Except.error e => ([Event.http call], Except.error e)
    | Except.ok (code, db) =>
      if code == 200 then ([Event.http call], Except.ok (db.getD "main"))
      else ([Event.http call], Except.ok (r.config.default_branch.getD "main"))
  else ([], Except.ok (r.config.default_branch.getD "main"))

/-- Lower-casing as used by the Python `str.lower()` presence checks
(character-wise, on the string's character list). -/
def strLower (s : String) : String :=
  ⟨s.data.map Char.toLower⟩

/-- Python prefix test `s.startswith(p)`. -/
def pyStartsWith (s p : String) : Bool :=
  p.data.isPrefixOf s.data

/-- Python substring test `needle in hay`. -/
def strContains (hay needle : String) : Bool :=
  hay.data.tails.any (fun t => needle.data.isPrefixOf t)

/-- Python suffix test `s.endswith(p)`. -/
def pyEndsWith (s p : String) : Bool :=
  p.data.isSuffixOf s.data

/-- The review dict built by `auto_pr_review`. -/
structure Review where
  suggestions : List String
  warnings : List String
  approvals : List String
deriving DecidableEq

/-- The per-file pattern checks of `auto_pr_review` (source lines 542-550),
folded over the PR's files in order. -/
def reviewOf (files : List PrFile) : Review :=
  files.foldl
    (fun rev file =>
      let rev :=
        if pyEndsWith file.filename ".js" && strContains file.patch "console.log"
        then { rev with warnings :=
                 rev.warnings ++ ["Console.log found in " ++ file.filename] }
        else rev
      let rev :=
        if pyEndsWith file.filename ".py" && strContains file.patch "print("
        then { rev with suggestions :=
                 rev.suggestions ++ ["Use logging instead of print in " ++ file.filename] }
        else rev
      if file.additions > 500
      then { rev with warnings :=
               rev.warnings ++ ["Large change in " ++ file.filename ++ " (" ++
                 toString file.additions ++ " additions)"] }
      else rev)
    { suggestions := [], warnings := [], approvals := [] }

/-- `auto_pr_review` (source lines 532-551): raises `ValueError` when no
GitHub token is configured, before any network traffic; otherwise gets the
PR-files listing (no timeout; a transport error raises), returns the empty
dict (`none`) on a non-200 response, and otherwise the pattern-matching
review. -/
def auto_pr_review (r : Robot) (env : RepoEnv) (repo_name : String)
    (pr_number : Nat) : List Event × Except String (Option Review) :=
  if !truthyS r.github_token then
    ([], Except.error "ValueError: Missing GITHUB_TOKEN for GitHub API calls.")
  else
    let call : HttpCall :=
      { url := ("https://api.github.com/repos/" ++ r.github_username ++ "/" ++
          repo_name ++ "/pulls/" ++ toString pr_number ++ "/files"),
        timeout := none }
    match env.prFilesHttp with
    | Except.error e => ([Event.http call], Except.error e)
    | Except.ok (code, files) =>
      if code != 200 then ([Event.http call], Except.ok none)
      else ([Event.http call], Except.ok (some (reviewOf files)))

/-- The analysis dict built by `analyze_repository` from the top-level
content listing. -/
structure Analysis where
  files : List String
  has_readme : Bool
  has_package_json : Bool
  has_dockerfile : Bool
  suggestions : List String
deriving DecidableEq

/-- The analysis record computed from the listing's file names
(source lines 329-339). -/
def mkAnalysis (files : List String) : Analysis :=
  let has_readme := files.any (fun f => pyStartsWith (strLower f) "readme")
  let has_package_json := files.any (fun f => f == "package.json")
  let has_dockerfile := files.any (fun f => strLower f == "dockerfile")
  let s1 := if !has_readme then ["Add a README.md file"] else []
  let s2 := if !has_package_json && files.any (fun f => strContains f ".js")
            then ["Consider adding package.json for Node.js project"] else []
  { files := files, has_readme := has_readme, has_package_json := has_package_json,
    has_dockerfile := has_dockerfile, suggestions := s1 ++ s2 }

/-- `analyze_repository` (source lines 322-340): issues the content-listing
GET unconditionally — there is no token check; the request uses the
`base_headers` (whose `Authorization` entry is the empty string when no token
is configured) and passes no timeout. A non-200 response yields the empty
dict (`none`); a transport error raises. -/
def analyze_repository (r : Robot) (env : RepoEnv) (repo_name : String) :
    List Event × Except String (Option Analysis) :=
  let call : HttpCall :=
    { url := "https://api.github.com/repos/" ++ r.github_username ++ "/" ++
        repo_name ++ "/contents",
      timeout := none }
  match env.contentsHttp with
  | Except.error e => ([Event.http call], Except.error e)
  | Except.ok (status, files) =>
    if status != 200 then ([Event.http call], Except.ok none)
    else ([Event.http call], Except.ok (some (mkAnalysis files)))

/-- `generate_readme` (source lines 368-389). -/
def generate_readme (repo_name : String) : String :=
  "# " ++ repo_name ++ "\n\n## Description\nThis project is managed by **AI DevOps Robot**.\n\n## Features\n- GitHub automation (create repo, commit, PR/merge)\n- One-click deployments via deploy hooks:\n  - Vercel\n  - Render\n  - Netlify\n\n## Quick Start\n1. Create `.env` (see `.env.example`) and `devops_config.yaml`.\n2. `pip install -r requirements.txt`\n3. Run: `python devops_robot.py`\n4. Use commands like `create_repo`, `improve_repo`, `deploy`.\n\n## License\nMIT\n"

/-- `generate_gitignore` (source lines 391-428). -/
def generate_gitignore : String :=
  "# Dependencies\nnode_modules/\nnpm-debug.log*\nyarn-debug.log*\nyarn-error.log*\n\n# Environment\n.env\n.env.*\n\n# Build outputs\ndist/\nbuild/\n.next/\nout/\n\n# IDE\n.vscode/\n.idea/\n*.swp\n*.swo\n\n# OS\n.DS_Store\nThumbs.db\n\n# Logs\nlogs\n*.log\n\n# Coverage\ncoverage/\n\n# Cache\n.cache/\n.parcel-cache/\n"

/-- `generate_github_actions_workflow` (source lines 430-455); literal braces
of the YAML template are written with their character escapes. -/
def generate_github_actions_workflow (_platforms : List String) : String :=
  "name: Deploy (Hooks)\n\non:\n  push:\n    branches: [ main ]\n\njobs:\n  deploy:\n    runs-on: ubuntu-latest\n    steps:\n      - name: Trigger Vercel (if configured)\n        if: $\x7b\x7b secrets.VERCEL_DEPLOY_HOOK != '' \x7d\x7d\n        run: curl -X POST \"$\x7b\x7b secrets.VERCEL_DEPLOY_HOOK \x7d\x7d\"\n\n      - name: Trigger Render (if configured)\n        if: $\x7b\x7b secrets.RENDER_SERVICE_ID != '' && secrets.RENDER_TOKEN != '' \x7d\x7d\n        run: |\n          curl -X POST \"https://api.render.com/v1/services/$\x7b\x7b secrets.RENDER_SERVICE_ID \x7d\x7d/deploys\" \\\n          -H \"Authorization: Bearer $\x7b\x7b secrets.RENDER_TOKEN \x7d\x7d\"\n\n      - name: Trigger Netlify (if configured)\n        if: $\x7b\x7b secrets.NETLIFY_BUILD_HOOK != '' \x7d\x7d\n        run: curl -X POST \"$\x7b\x7b secrets.NETLIFY_BUILD_HOOK \x7d\x7d\"\n"

/-- The improvements file mapping built by `auto_improve_repository`
(source lines 346-356): `README.md` only when the analysis found no
README-prefixed name, `.gitignore` only when no exact `.gitignore` entry is
in the listing, and the deploy workflow file unconditionally. -/
def improvementsOf (repo_name : String) (a : Analysis) : List (String × String) :=
  (if !a.has_readme then [("README.md", generate_readme repo_name)] else [])
    ++ (if !a.files.contains ".gitignore"
        then [(".gitignore", generate_gitignore)] else [])
    ++ [(".github/workflows/deploy.yml",
         generate_github_actions_workflow ["vercel", "render", "netlify"])]

/-- `auto_improve_repository` (source lines 342-363): analyze; an empty
analysis aborts with `False`; otherwise build the improvements mapping and,
when it is non-empty, run the update-and-deploy workflow (whose boolean
result is ignored) and return `True`; when empty, report and return `True`. -/
def auto_improve_repository (r : Robot) (env : RepoEnv) (repo_name : String) :
    List Event × Except String Bool :=
  match analyze_repository r env repo_name with
  | (ev, Except.error e) => (ev, Except.error e)
  | (ev, Except.ok none) => (ev, Except.ok false)
  | (ev, Except.ok (some a)) =>
    let improvements := improvementsOf repo_name a
    if !improvements.isEmpty then
      match auto_workflow_update_and_deploy r env repo_name improvements with
      | (ev2, Except.error e) => (ev ++ ev2, Except.error e)
      | (ev2, Except.ok _) => (ev ++ ev2, Except.ok true)
    else (ev ++ [Event.info "No improvements needed."], Except.ok true)

/-- The per-item dispatch inside the loop of `batch_repository_operation`
(source lines 464-473): `ok` starts `False`; the three known operation
selectors run their single-repository operation (whose uncaught exceptions
propagate); an unknown selector just reports, leaving `ok = False`. -/
def batch_item (r : Robot) (envOf : String → RepoEnv) (operation : String)
    (files : List (String × String)) (repo : String) :
    List Event × Except String Bool :=
  if operation == "update_and_deploy" then
    auto_workflow_update_and_deploy r (envOf repo) repo files
  else if operation == "improve" then
    auto_improve_repository r (envOf repo) repo
  else if operation == "deploy" then
    match trigger_all_deployments r (envOf repo) repo with
    | (ev, Except.error e) => (ev, Except.error e)
    | (ev, Except.ok _) => (ev, Except.ok true)
  else ([Event.info ("Unknown operation: " ++ operation)], Except.ok false)

/-- `batch_repository_operation` (source lines 460-476): process the
repositories in order, appending per-repository (repo, success) records; the loop
body has no exception handler, so an exception raised by a single-repository
operation propagates and aborts the whole batch (`Except.error`), leaving
the remaining repositories unprocessed. -/
def batch_repository_operation (r : Robot) (envOf : String → RepoEnv)
    (repos : List String) (operation : String)
    (files : List (String × String)) :
    List Event × Except String (List (String × Bool)) :=
  match repos with
  | [] => ([], Except.ok [])
  | repo :: rest =>
    match batch_item r envOf operation files repo with
    | (ev, Except.error e) => (ev, Except.error e)
    | (ev, Except.ok ok) =>
      match batch_repository_operation r envOf rest operation files with
      | (evs, Except.error e) => (ev ++ evs, Except.error e)
      | (evs, Except.ok results) => (ev ++ evs, Except.ok ((repo, ok) :: results))


/-! ### Helper lemmas about the shapes of event traces -/

/-- Every event emitted by `deploy_to_vercel` is an HTTP request with no
timeout. -/
lemma vercel_mem {r : Robot} {env : RepoEnv} {n : String} {e : Event}
    (h : e ∈ (deploy_to_vercel r env n).1) :
    ∃ u, e = Event.http { url := u, timeout := none } := by
  simp only [deploy_to_vercel] at h
  repeat' split at h
  all_goals simp at h
  all_goals exact ⟨_, h⟩

/-- Every event emitted by `deploy_to_render` is an HTTP request with no
timeout. -/
lemma render_mem {sid : Option String} {r : Robot} {env : RepoEnv} {e : Event}
    (h : e ∈ (deploy_to_render sid r env).1) :
    ∃ u, e = Event.http { url := u, timeout := none } := by
  simp only [deploy_to_render] at h
  repeat' split at h
  all_goals simp at h
  all_goals exact ⟨_, h⟩

/-- Every event emitted by `deploy_to_netlify` is an HTTP request with no
timeout. -/
lemma netlify_mem {r : Robot} {env : RepoEnv} {e : Event}
    (h : e ∈ (deploy_to_netlify r env).1) :
    ∃ u, e = Event.http { url := u, timeout := none } := by
  simp only [deploy_to_netlify] at h
  repeat' split at h
  all_goals simp at h
  all_goals exact ⟨_, h⟩

/-- Every event emitted by `trigger_all_deployments` is an HTTP request with
no timeout, or the informational no-deployments message. -/
lemma trigger_mem {r : Robot} {env : RepoEnv} {n : String} {e : Event}
    (h : e ∈ (trigger_all_deployments r env n).1) :
    (∃ u, e = Event.http { url := u, timeout := none }) ∨
      e = Event.info noDeployMsg := by
  simp only [trigger_all_deployments] at h
  split at h
  case _ ev2 err heq =>
    simp only [List.mem_append] at h
    rcases h with h | h
    · split at h
      · exact Or.inl (vercel_mem h)
      · simp at h
    · split at heq
      · exact Or.inl (render_mem (show e ∈ (deploy_to_render _ r env).1 by rw [heq]; exact h))
      · simp at heq
  case _ ev2 ok2 heq =>
    simp only [List.mem_append] at h
    rcases h with ((h | h) | h) | h
    · split at h
      · exact Or.inl (vercel_mem h)
      · simp at h
    · split at heq
      · exact Or.inl (render_mem (show e ∈ (deploy_to_render _ r env).1 by rw [heq]; exact h))
      · simp at heq
        rw [heq.1] at h
        simp at h
    · split at h
      · exact Or.inl (netlify_mem h)
      · simp at h
    · simp at h
      exact Or.inr h.2

/-! ### Concrete fixtures used by witnesses and counterexamples -/

/-- A configuration with every hosting platform disabled (the shape of the
generated default config). -/
def cfgOff : Config :=
  { hosting_platforms :=
      { vercel := { enabled := some false, deploy_hook_url := some "" },
        render := { enabled := some false, service_id := some "" },
        netlify := { enabled := some false, deploy_hook_url := some "" } },
    auto_deploy := none,
    default_branch := some "main" }

/-- A robot with a GitHub token and all platforms disabled. -/
def robotOff : Robot :=
  { github_token := some "ghp_token", github_username := "user",
    config := cfgOff, render_token := none }

/-- A benign environment: working copy present, every external interaction
succeeds. -/
def envBase : RepoEnv :=
  { pathExists := true, cloneOk := true, commitPushOk := true,
    vercelHttp := Except.ok 200, renderHttp := Except.ok 200,
    netlifyHttp := Except.ok 200, contentsHttp := Except.ok (200, []),
    createHttp := Except.ok 201, prCreateHttp := Except.ok 201,
    prMergeHttp := Except.ok 200, runsHttp := Except.ok 200,
    reposHttp := Except.ok 200, repoInfoHttp := Except.ok (200, some "main"),
    prFilesHttp := Except.ok (200, []) }

/-! ### C7 -/

/-- C7: for every target configuration whose `enabled` flag is falsy, the
corresponding platform trigger adapter (`deploy_to_vercel`,
`deploy_to_render`, `deploy_to_netlify`) returns `false` immediately and
emits no network call. -/
theorem C7_disabled_adapter_short_circuits (r : Robot) (env : RepoEnv)
    (repo : String) (sid : Option String) :
    (truthyB r.config.hosting_platforms.vercel.enabled = false →
      deploy_to_vercel r env repo = ([], false)) ∧
    (truthyB r.config.hosting_platforms.render.enabled = false →
      deploy_to_render sid r env = ([], Except.ok false)) ∧
    (truthyB r.config.hosting_platforms.netlify.enabled = false →
      deploy_to_netlify r env = ([], false)) := by
  refine ⟨fun h => ?_, fun h => ?_, fun h => ?_⟩ <;>
    simp [deploy_to_vercel, deploy_to_render, deploy_to_netlify, h]

/-- C7 witness: at the all-disabled configuration the three adapters return
`false` with an empty trace. -/
theorem C7_disabled_adapter_short_circuits_witness :
    truthyB robotOff.config.hosting_platforms.vercel.enabled = false ∧
    truthyB robotOff.config.hosting_platforms.render.enabled = false ∧
    truthyB robotOff.config.hosting_platforms.netlify.enabled = false ∧
    deploy_to_vercel robotOff envBase "site" = ([], false) ∧
    deploy_to_render none robotOff envBase = ([], Except.ok false) ∧
    deploy_to_netlify robotOff envBase = ([], false) :=
  ⟨by decide, by decide, by decide,
   (C7_disabled_adapter_short_circuits robotOff envBase "site" none).1 (by decide),
   (C7_disabled_adapter_short_circuits robotOff envBase "site" none).2.1 (by decide),
   (C7_disabled_adapter_short_circuits robotOff envBase "site" none).2.2 (by decide)⟩

/-! ### C9 -/

/-- C9: for every successful top-level listing, the improvement planner's
file mapping has exactly the three entries README, `.gitignore` and the CI
workflow definition when the listing has no case-insensitive README-prefixed
name and no exact `.gitignore` entry; exactly the one CI workflow entry when
both are present; and the CI workflow entry unconditionally, so at least one
entry. -/
theorem C9_planner_file_mapping (repo : String) (files : List String) :
    (files.any (fun f => pyStartsWith (strLower f) "readme") = false →
      files.contains ".gitignore" = false →
      (improvementsOf repo (mkAnalysis files)).length = 3 ∧
      (improvementsOf repo (mkAnalysis files)).map Prod.fst =
        ["README.md", ".gitignore", ".github/workflows/deploy.yml"]) ∧
    (files.any (fun f => pyStartsWith (strLower f) "readme") = true →
      files.contains ".gitignore" = true →
      (improvementsOf repo (mkAnalysis files)).length = 1 ∧
      (improvementsOf repo (mkAnalysis files)).map Prod.fst =
        [".github/workflows/deploy.yml"]) ∧
    ".github/workflows/deploy.yml" ∈
      (improvementsOf repo (mkAnalysis files)).map Prod.fst ∧
    1 ≤ (improvementsOf repo (mkAnalysis files)).length := by
  refine ⟨fun h1 h2 => ?_, fun h1 h2 => ?_, ?_, ?_⟩
  · have h2' : ".gitignore" ∉ files := by simpa using h2
    simp [improvementsOf, mkAnalysis, h1, h2']
  · have h2' : ".gitignore" ∈ files := by simpa using h2
    simp [improvementsOf, mkAnalysis, h1, h2']
  · simp [improvementsOf]
  · simp only [improvementsOf, List.length_append, List.length_singleton]
    omega

/-- C9 witness: a listing with neither file yields the three-entry mapping;
a listing with both yields only the workflow entry. -/
theorem C9_planner_file_mapping_witness :
    (["main.py"].any (fun f => pyStartsWith (strLower f) "readme") = false) ∧
    (["main.py"].contains ".gitignore" = false) ∧
    (improvementsOf "proj" (mkAnalysis ["main.py"])).map Prod.fst =
      ["README.md", ".gitignore", ".github/workflows/deploy.yml"] ∧
    (["README.md", ".gitignore"].any
        (fun f => pyStartsWith (strLower f) "readme") = true) ∧
    (["README.md", ".gitignore"].contains ".gitignore" = true) ∧
    (improvementsOf "proj" (mkAnalysis ["README.md", ".gitignore"])).map Prod.fst =
      [".github/workflows/deploy.yml"] :=
  ⟨by decide, by decide,
   ((C9_planner_file_mapping "proj" ["main.py"]).1 (by decide) (by decide)).2,
   by decide, by decide,
   ((C9_planner_file_mapping "proj" ["README.md", ".gitignore"]).2.1
      (by decide) (by decide)).2⟩

/-! ### C5 -/

/-- A robot with no GitHub token configured. -/
def rNoTok : Robot :=
  { github_token := none, github_username := "user",
    config := cfgOff, render_token := none }

/-- Every event emitted by `analyze_repository` is an HTTP request with no
timeout. -/
lemma analyze_mem {r : Robot} {env : RepoEnv} {repo : String} {e : Event}
    (h : e ∈ (analyze_repository r env repo).1) :
    ∃ u, e = Event.http { url := u, timeout := none } := by
  simp only [analyze_repository] at h
  repeat' split at h
  all_goals simp at h
  all_goals exact ⟨_, h⟩

/-- Every event emitted by `create_repository` is an HTTP request with no
timeout. -/
lemma create_mem {r : Robot} {env : RepoEnv} {n d : String} {p : Bool} {e : Event}
    (h : e ∈ (create_repository r env n d p).1) :
    ∃ u, e = Event.http { url := u, timeout := none } := by
  simp only [create_repository] at h
  repeat' split at h
  all_goals simp at h
  all_goals exact ⟨_, h⟩

/-- Every event emitted by `create_pull_request` is an HTTP request with no
timeout. -/
lemma pr_create_mem {r : Robot} {env : RepoEnv} {n : String} {e : Event}
    (h : e ∈ (create_pull_request r env n).1) :
    ∃ u, e = Event.http { url := u, timeout := none } := by
  simp only [create_pull_request] at h
  repeat' split at h
  all_goals simp at h
  all_goals exact ⟨_, h⟩

/-- Every event emitted by `merge_pull_request` is an HTTP request with no
timeout. -/
lemma pr_merge_mem {r : Robot} {env : RepoEnv} {n : String} {k : Nat} {e : Event}
    (h : e ∈ (merge_pull_request r env n k).1) :
    ∃ u, e = Event.http { url := u, timeout := none } := by
  simp only [merge_pull_request] at h
  repeat' split at h
  all_goals simp at h
  all_goals exact ⟨_, h⟩

/-- Every event emitted by `check_deployment_status` is an HTTP request with
no timeout. -/
lemma runs_mem {r : Robot} {env : RepoEnv} {n : String} {e : Event}
    (h : e ∈ (check_deployment_status r env n).1) :
    ∃ u, e = Event.http { url := u, timeout := none } := by
  simp only [check_deployment_status] at h
  repeat' split at h
  all_goals simp at h
  all_goals exact ⟨_, h⟩

/-- Every event emitted by `health_check_all_repos` is an HTTP request with
no timeout. -/
lemma health_mem {r : Robot} {env : RepoEnv} {e : Event}
    (h : e ∈ (health_check_all_repos r env).1) :
    ∃ u, e = Event.http { url := u, timeout := none } := by
  simp only [health_check_all_repos] at h
  repeat' split at h
  all_goals simp at h
  all_goals exact ⟨_, h⟩

/-- C5 counterexample: with no token configured, the content-listing read of
the improvement planner is still attempted — `analyze_repository` issues its
GET request, contradicting the claim that it is not attempted without a
token. -/
theorem C5_counterexample :
    truthyS rNoTok.github_token = false ∧
    (analyze_repository rNoTok envBase "proj").1 =
      [Event.http { url := "https://api.github.com/repos/user/proj/contents",
                    timeout := none }] := by
  constructor <;> decide

/-- C5 (amended): with no token configured, repository creation, the
pull-request operations, the workflow-run listing and the repository listing
check the token first and emit no network request; but the content-listing
read (`analyze_repository`) performs its request unconditionally, token or
not. -/
theorem C5_amended_token_gating (r : Robot) (env : RepoEnv) (repo : String)
    (pr : Nat) (h : truthyS r.github_token = false) :
    (create_repository r env repo "" false).1 = [] ∧
    (create_pull_request r env repo).1 = [] ∧
    (merge_pull_request r env repo pr).1 = [] ∧
    (check_deployment_status r env repo).1 = [] ∧
    (health_check_all_repos r env).1 = [] ∧
    (analyze_repository r env repo).1 =
      [Event.http
        { url := ("https://api.github.com/repos/" ++ r.github_username ++ "/" ++ repo ++ "/contents"),
          timeout := none }] := by
  refine ⟨?_, ?_, ?_, ?_, ?_, ?_⟩
  · simp [create_repository, h]
  · simp [create_pull_request, h]
  · simp [merge_pull_request, h]
  · simp [check_deployment_status, h]
  · simp [health_check_all_repos, h]
  · rcases hc : env.contentsHttp with e | p
    · simp [analyze_repository, hc]
    · obtain ⟨st, fs⟩ := p
      simp only [analyze_repository, hc]
      split <;> rfl

/-- C5 witness: the amended statement evaluated at the token-less robot. -/
theorem C5_amended_token_gating_witness :
    truthyS rNoTok.github_token = false ∧
    ((create_repository rNoTok envBase "proj" "" false).1 = [] ∧
     (create_pull_request rNoTok envBase "proj").1 = [] ∧
     (merge_pull_request rNoTok envBase "proj" 1).1 = [] ∧
     (check_deployment_status rNoTok envBase "proj").1 = [] ∧
     (health_check_all_repos rNoTok envBase).1 = [] ∧
     (analyze_repository rNoTok envBase "proj").1 =
       [Event.http
         { url := ("https://api.github.com/repos/" ++ rNoTok.github_username ++ "/" ++ "proj" ++ "/contents"),
           timeout := none }]) :=
  ⟨by decide, C5_amended_token_gating rNoTok envBase "proj" 1 (by decide)⟩

/-! ### C6 -/

/-- A configuration with only Vercel enabled and a hook URL set. -/
def cfgVercelOn : Config :=
  { hosting_platforms :=
      { vercel := { enabled := some true, deploy_hook_url := some "https://vercel.hook" },
        render := { enabled := some false, service_id := some "" },
        netlify := { enabled := some false, deploy_hook_url := some "" } },
    auto_deploy := none,
    default_branch := some "main" }

/-- A robot with only Vercel enabled. -/
def robotVercelOn : Robot :=
  { github_token := some "ghp_token", github_username := "user",
    config := cfgVercelOn, render_token := none }

/-- Every event emitted by `get_default_branch` is an HTTP request with no
timeout. -/
lemma default_branch_mem {r : Robot} {env : RepoEnv} {n : String} {e : Event}
    (h : e ∈ (get_default_branch r env n).1) :
    ∃ u, e = Event.http { url := u, timeout := none } := by
  simp only [get_default_branch] at h
  repeat' split at h
  all_goals simp at h
  all_goals exact ⟨_, h⟩

/-- Every event emitted by `auto_pr_review` is an HTTP request with no
timeout. -/
lemma pr_review_mem {r : Robot} {env : RepoEnv} {n : String} {k : Nat} {e : Event}
    (h : e ∈ (auto_pr_review r env n k).1) :
    ∃ u, e = Event.http { url := u, timeout := none } := by
  simp only [auto_pr_review] at h
  repeat' split at h
  all_goals simp at h
  all_goals exact ⟨_, h⟩

/-- An environment where the Vercel hook POST raises a transport-level
exception. -/
def envVercelDown : RepoEnv :=
  { envBase with vercelHttp := Except.error "requests.exceptions.ConnectionError" }

/-- C6 counterexample: the Vercel deploy-hook POST is issued with no timeout
argument — there is no enforced upper bound on its wait time, contradicting
the claim that every outbound call has one. -/
theorem C6_counterexample :
    (deploy_to_vercel robotVercelOn envBase "site").1 =
      [Event.http { url := "https://vercel.hook", timeout := none }] := by
  decide

/-- C6 (amended): every outbound HTTP request made by the engine — the
deploy-hook and Render API posts, the content listing, repository creation,
the pull-request operations (including the PR-review file listing), the
workflow-run listing, the repository listing and the default-branch lookup —
is issued without a timeout argument, so no upper bound on wait time is
enforced anywhere; and a transport error, where it is caught (the Vercel and
Netlify hook posts), surfaces as the same `false` outcome as any other
failure. -/
theorem C6_amended_no_timeout_anywhere (r : Robot) (env : RepoEnv)
    (repo : String) (sid : Option String) (pr : Nat) (c : HttpCall) :
    (Event.http c ∈ (deploy_to_vercel r env repo).1 → c.timeout = none) ∧
    (Event.http c ∈ (deploy_to_render sid r env).1 → c.timeout = none) ∧
    (Event.http c ∈ (deploy_to_netlify r env).1 → c.timeout = none) ∧
    (Event.http c ∈ (analyze_repository r env repo).1 → c.timeout = none) ∧
    (Event.http c ∈ (create_repository r env repo "" false).1 → c.timeout = none) ∧
    (Event.http c ∈ (create_pull_request r env repo).1 → c.timeout = none) ∧
    (Event.http c ∈ (merge_pull_request r env repo pr).1 → c.timeout = none) ∧
    (Event.http c ∈ (check_deployment_status r env repo).1 → c.timeout = none) ∧
    (Event.http c ∈ (health_check_all_repos r env).1 → c.timeout = none) ∧
    (Event.http c ∈ (get_default_branch r env repo).1 → c.timeout = none) ∧
    (Event.http c ∈ (auto_pr_review r env repo pr).1 → c.timeout = none) ∧
    (httpOk env.vercelHttp = false → (deploy_to_vercel r env repo).2 = false) ∧
    (httpOk env.netlifyHttp = false → (deploy_to_netlify r env).2 = false) := by
  refine ⟨fun h => ?_, fun h => ?_, fun h => ?_, fun h => ?_, fun h => ?_,
          fun h => ?_, fun h => ?_, fun h => ?_, fun h => ?_, fun h => ?_,
          fun h => ?_, fun h => ?_, fun h => ?_⟩
  · obtain ⟨u, hu⟩ := vercel_mem h; simp at hu; rw [hu]
  · obtain ⟨u, hu⟩ := render_mem h; simp at hu; rw [hu]
  · obtain ⟨u, hu⟩ := netlify_mem h; simp at hu; rw [hu]
  · obtain ⟨u, hu⟩ := analyze_mem h; simp at hu; rw [hu]
  · obtain ⟨u, hu⟩ := create_mem h; simp at hu; rw [hu]
  · obtain ⟨u, hu⟩ := pr_create_mem h; simp at hu; rw [hu]
  · obtain ⟨u, hu⟩ := pr_merge_mem h; simp at hu; rw [hu]
  · obtain ⟨u, hu⟩ := runs_mem h; simp at hu; rw [hu]
  · obtain ⟨u, hu⟩ := health_mem h; simp at hu; rw [hu]
  · obtain ⟨u, hu⟩ := default_branch_mem h; simp at hu; rw [hu]
  · obtain ⟨u, hu⟩ := pr_review_mem h; simp at hu; rw [hu]
  · rcases hv : env.vercelHttp with e | code
    · simp only [deploy_to_vercel, hv]
      repeat' split
      all_goals rfl
    · rw [hv] at h; simp [httpOk] at h
  · rcases hn : env.netlifyHttp with e | code
    · simp only [deploy_to_netlify, hn]
      repeat' split
      all_goals rfl
    · rw [hn] at h; simp [httpOk] at h

/-- C6 witness: the amended statement evaluated at the enabled Vercel
configuration — the hook POST and the default-branch GET are in their
traces with no timeout, and a Vercel transport error surfaces as `false`. -/
theorem C6_amended_no_timeout_anywhere_witness :
    Event.http { url := "https://vercel.hook", timeout := none } ∈
      (deploy_to_vercel robotVercelOn envBase "site").1 ∧
    ({ url := "https://vercel.hook", timeout := none } : HttpCall).timeout = none ∧
    Event.http { url := "https://api.github.com/repos/user/site", timeout := none } ∈
      (get_default_branch robotVercelOn envBase "site").1 ∧
    ({ url := "https://api.github.com/repos/user/site", timeout := none } :
        HttpCall).timeout = none ∧
    httpOk envVercelDown.vercelHttp = false ∧
    (deploy_to_vercel robotVercelOn envVercelDown "site").2 = false :=
  ⟨by decide,
   (C6_amended_no_timeout_anywhere robotVercelOn envBase "site" none 1
      { url := "https://vercel.hook", timeout := none }).1 (by decide),
   by decide,
   (C6_amended_no_timeout_anywhere robotVercelOn envBase "site" none 1
      { url := "https://api.github.com/repos/user/site", timeout := none
        }).2.2.2.2.2.2.2.2.2.1 (by decide),
   by decide,
   (C6_amended_no_timeout_anywhere robotVercelOn envVercelDown "site" none 1
      { url := "https://vercel.hook", timeout := none
        }).2.2.2.2.2.2.2.2.2.2.2.1 (by decide)⟩

/-! ### C8 -/

/-- Is an event a clone attempt? -/
def isCloneEv (e : Event) : Bool :=
  match e with
  | Event.cloneAttempt _ => true
  | _ => false

/-- `trigger_all_deployments` performs no clone attempts. -/
lemma trigger_countP_clone (r : Robot) (env : RepoEnv) (n : String) :
    (trigger_all_deployments r env n).1.countP isCloneEv = 0 := by
  rw [List.countP_eq_zero]
  intro e he
  rcases trigger_mem he with ⟨u, rfl⟩ | rfl <;> simp [isCloneEv]

/-- The file-write trace contains no clone attempts. -/
lemma map_fileWrite_countP (files : List (String × String)) :
    (files.map (fun fc => Event.fileWrite fc.1)).countP isCloneEv = 0 := by
  rw [List.countP_eq_zero]
  intro e he
  rcases List.mem_map.mp he with ⟨fc, -, rfl⟩
  simp [isCloneEv]

/-- C8: on a missing local working copy the workflow sequencer's first
external action is the single clone attempt (exactly one clone in the whole
trace, so every file write comes after it), and when the clone fails the
sequencer performs nothing else — zero file writes, zero commit attempts —
and returns `False`. -/
theorem C8_clone_first_and_abort (r : Robot) (env : RepoEnv) (repo : String)
    (files : List (String × String)) (h : env.pathExists = false) :
    (auto_workflow_update_and_deploy r env repo files).1.head? =
      some (Event.cloneAttempt repo) ∧
    (auto_workflow_update_and_deploy r env repo files).1.countP isCloneEv = 1 ∧
    (env.cloneOk = false →
      auto_workflow_update_and_deploy r env repo files =
        ([Event.cloneAttempt repo], Except.ok false)) := by
  cases hc : env.cloneOk
  case false =>
    refine ⟨?_, ?_, fun _ => ?_⟩ <;>
      simp [auto_workflow_update_and_deploy, clone_repository, h, hc, isCloneEv]
  case true =>
    have hz := trigger_countP_clone r env repo
    rcases ht : trigger_all_deployments r env repo with ⟨evd, res⟩
    rw [ht] at hz
    have hz' : evd.countP isCloneEv = 0 := hz
    refine ⟨?_, ?_, fun hk => nomatch hk⟩ <;>
      cases had : r.config.auto_deploy.getD true <;> cases res <;>
        simp [auto_workflow_update_and_deploy, clone_repository, commit_and_push,
              h, hc, had, ht, List.countP_append, List.countP_cons, hz',
              map_fileWrite_countP, isCloneEv]

/-- An environment with no working copy on disk and a failing clone. -/
def envNoCopy : RepoEnv :=
  { envBase with pathExists := false, cloneOk := false }

/-- C8 witness: with no working copy and a failing clone the sequencer's
whole run is the one clone attempt and a `False` result. -/
theorem C8_clone_first_and_abort_witness :
    envNoCopy.pathExists = false ∧ envNoCopy.cloneOk = false ∧
    auto_workflow_update_and_deploy robotOff envNoCopy "site" [("a.txt", "x")] =
      ([Event.cloneAttempt "site"], Except.ok false) :=
  ⟨by decide, by decide,
   (C8_clone_first_and_abort robotOff envNoCopy "site" [("a.txt", "x")]
      (by decide)).2.2 (by decide)⟩

/-! ### C10 -/

/-- When the Render HTTP interaction does not raise, `deploy_to_render`
returns a boolean rather than propagating an exception. -/
lemma render_no_raise (sid : Option String) (r : Robot) (env : RepoEnv)
    (h : httpOk env.renderHttp = true) :
    ∃ b, (deploy_to_render sid r env).2 = Except.ok b := by
  rcases hre : env.renderHttp with e | code
  · simp [httpOk, hre] at h
  · simp only [deploy_to_render, hre]
    repeat' split
    all_goals exact ⟨_, rfl⟩

/-- When the Render HTTP interaction does not raise,
`trigger_all_deployments` returns normally. -/
lemma trigger_no_raise (r : Robot) (env : RepoEnv) (n : String)
    (h : httpOk env.renderHttp = true) :
    ∃ t, (trigger_all_deployments r env n).2 = Except.ok t := by
  simp only [trigger_all_deployments]
  split
  case _ ev2 err heq =>
    exfalso
    split at heq
    · obtain ⟨b, hb⟩ :=
        render_no_raise r.config.hosting_platforms.render.service_id r env h
      have h2 := congrArg Prod.snd heq
      simp only at h2
      rw [hb] at h2
      cases h2
    · have h2 := congrArg Prod.snd heq
      simp at h2
  case _ ev2 ok2 heq => exact ⟨_, rfl⟩

/-- C10: whenever a local working copy is obtained (directory present or
clone succeeded) and the run terminates normally (no uncaught Render
transport exception), `auto_workflow_update_and_deploy` returns `True` —
for every commit/push outcome and every adapter status code — and only
failure to obtain a working copy returns `False`. -/
theorem C10_success_flag_ignores_outcomes (r : Robot) (env : RepoEnv)
    (repo : String) (files : List (String × String)) :
    (env.pathExists = false → env.cloneOk = false →
      (auto_workflow_update_and_deploy r env repo files).2 = Except.ok false) ∧
    ((env.pathExists || env.cloneOk) = true → httpOk env.renderHttp = true →
      (auto_workflow_update_and_deploy r env repo files).2 = Except.ok true) := by
  constructor
  · intro h1 h2
    simp [auto_workflow_update_and_deploy, clone_repository, h1, h2]
  · intro h1 h2
    rcases ht : trigger_all_deployments r env repo with ⟨evd, res⟩
    obtain ⟨t, htt⟩ := trigger_no_raise r env repo h2
    rw [ht] at htt
    simp only at htt
    cases hp : env.pathExists
    · have hcl : env.cloneOk = true := by simpa [hp] using h1
      cases had : r.config.auto_deploy.getD true <;>
        simp [auto_workflow_update_and_deploy, clone_repository, hp, hcl, had, ht, htt]
    · cases had : r.config.auto_deploy.getD true <;>
        simp [auto_workflow_update_and_deploy, clone_repository, hp, had, ht, htt]

/-- A configuration with all three platforms enabled and auto-deploy on. -/
def cfgAllOn : Config :=
  { hosting_platforms :=
      { vercel := { enabled := some true, deploy_hook_url := some "https://vercel.hook" },
        render := { enabled := some true, service_id := some "svc" },
        netlify := { enabled := some true, deploy_hook_url := some "https://netlify.hook" } },
    auto_deploy := some true,
    default_branch := some "main" }

/-- A robot with all three platforms enabled. -/
def robotAllOn : Robot :=
  { github_token := some "ghp_token", github_username := "user",
    config := cfgAllOn, render_token := some "rnd_token" }

/-- An environment where the commit/push fails and every deploy trigger is
rejected by the platform. -/
def envAllFail : RepoEnv :=
  { envBase with
    commitPushOk := false, vercelHttp := Except.ok 500,
    renderHttp := Except.ok 500, netlifyHttp := Except.ok 503 }

/-- C10 witness: with a failing push and all three deploy triggers rejected,
the sequencer still reports `True`. -/
theorem C10_success_flag_ignores_outcomes_witness :
    ((envAllFail.pathExists || envAllFail.cloneOk) = true) ∧
    (httpOk envAllFail.renderHttp = true) ∧
    (auto_workflow_update_and_deploy robotAllOn envAllFail "site"
      [("a.txt", "x")]).2 = Except.ok true :=
  ⟨by decide, by decide,
   (C10_success_flag_ignores_outcomes robotAllOn envAllFail "site"
      [("a.txt", "x")]).2 (by decide) (by decide)⟩

/-! ### C4 -/

/-- An environment whose commit/push step fails. -/
def envPushFail : RepoEnv :=
  { envBase with commitPushOk := false }

/-- C4 counterexample: with the default auto-deploy setting, a run whose
push step fails still invokes the deployment fan-out — the failed push does
not skip deployment, contradicting the claim. -/
theorem C4_counterexample :
    Event.commitPush false ∈
      (auto_workflow_update_and_deploy robotOff envPushFail "site" []).1 ∧
    Event.fanOut "site" ∈
      (auto_workflow_update_and_deploy robotOff envPushFail "site" []).1 := by
  constructor <;> decide

/-- C4 (amended): the workflow sequencer invokes the deployment fan-out when
and only when the auto-deploy flag is truthy (default true when unspecified)
and a working copy was obtained; the outcome of the commit-and-push step is
not consulted, so a failed push does not skip deployment. -/
theorem C4_amended_fanout_iff_auto_deploy (r : Robot) (env : RepoEnv)
    (repo : String) (files : List (String × String)) :
    ((env.pathExists || env.cloneOk) = false →
      Event.fanOut repo ∉ (auto_workflow_update_and_deploy r env repo files).1) ∧
    ((env.pathExists || env.cloneOk) = true →
      (Event.fanOut repo ∈ (auto_workflow_update_and_deploy r env repo files).1 ↔
        r.config.auto_deploy.getD true = true)) := by
  constructor
  · intro h
    have hp : env.pathExists = false := by
      cases hq : env.pathExists
      · rfl
      · rw [hq] at h; simp at h
    have hc : env.cloneOk = false := by
      cases hq : env.cloneOk
      · rfl
      · rw [hq] at h; simp at h
    simp [auto_workflow_update_and_deploy, clone_repository, hp, hc]
  · intro h
    rcases ht : trigger_all_deployments r env repo with ⟨evd, res⟩
    have hnofan : Event.fanOut repo ∉ evd := by
      intro hin
      rcases trigger_mem (show Event.fanOut repo ∈ (trigger_all_deployments r env repo).1
          by rw [ht]; exact hin) with ⟨u, hu⟩ | hu <;> cases hu
    cases hp : env.pathExists
    · have hcl : env.cloneOk = true := by simpa [hp] using h
      cases had : r.config.auto_deploy.getD true <;> cases res <;>
        simp [auto_workflow_update_and_deploy, clone_repository, commit_and_push,
              hp, hcl, had, ht, hnofan]
    · cases had : r.config.auto_deploy.getD true <;> cases res <;>
        simp [auto_workflow_update_and_deploy, clone_repository, commit_and_push,
              hp, had, ht, hnofan]

/-- C4 witness: the amended statement at the default auto-deploy
configuration with a failing push. -/
theorem C4_amended_fanout_iff_auto_deploy_witness :
    ((envPushFail.pathExists || envPushFail.cloneOk) = true) ∧
    (Event.fanOut "site" ∈
        (auto_workflow_update_and_deploy robotOff envPushFail "site" []).1 ↔
      robotOff.config.auto_deploy.getD true = true) :=
  ⟨by decide,
   (C4_amended_fanout_iff_auto_deploy robotOff envPushFail "site" []).2 (by decide)⟩

/-! ### C3 -/

/-- Is an event the informational no-deployments message? -/
def isInfoMsg (e : Event) : Bool :=
  e == Event.info noDeployMsg

/-- A trace of HTTP events contains no informational message. -/
lemma countP_info_http {l : List Event}
    (hl : ∀ e ∈ l, ∃ u, e = Event.http { url := u, timeout := none }) :
    l.countP isInfoMsg = 0 := by
  rw [List.countP_eq_zero]
  intro e he
  obtain ⟨u, rfl⟩ := hl e he
  simp [isInfoMsg]

/-- A disabled Vercel target short-circuits. -/
lemma vercel_disabled (r : Robot) (env : RepoEnv) (n : String)
    (h : truthyB r.config.hosting_platforms.vercel.enabled = false) :
    deploy_to_vercel r env n = ([], false) := by
  simp [deploy_to_vercel, h]

/-- A disabled Render target short-circuits. -/
lemma render_disabled (sid : Option String) (r : Robot) (env : RepoEnv)
    (h : truthyB r.config.hosting_platforms.render.enabled = false) :
    deploy_to_render sid r env = ([], Except.ok false) := by
  simp [deploy_to_render, h]

/-- A disabled Netlify target short-circuits. -/
lemma netlify_disabled (r : Robot) (env : RepoEnv)
    (h : truthyB r.config.hosting_platforms.netlify.enabled = false) :
    deploy_to_netlify r env = ([], false) := by
  simp [deploy_to_netlify, h]

/-- C3 counterexample: with Vercel enabled and its hook accepted, the
fan-out's internal aggregate is true but the function's returned value is
Python `None` — the value returned to the caller is not the logical OR of
the adapter results. -/
theorem C3_counterexample :
    (trigger_all_deployments robotVercelOn envBase "site").2 =
      Except.ok { ok_any := true, retVal := none } ∧
    (trigger_all_deployments robotVercelOn envBase "site").2.map
        TriggerResult.retVal ≠
      (trigger_all_deployments robotVercelOn envBase "site").2.map
        (fun t => some t.ok_any) := by
  constructor <;> decide

/-- C3 (amended): when `trigger_all_deployments` returns normally, its local
aggregate `ok_any` equals the logical OR of the three adapters' individual
results, the single informational no-deployments message is emitted exactly
when that aggregate is false — and the value returned to the caller is
`None`, not the aggregate. -/
theorem C3_amended_aggregate_or (r : Robot) (env : RepoEnv) (repo : String)
    (ev : List Event) (t : TriggerResult) (rb : Bool)
    (hr : (deploy_to_render r.config.hosting_platforms.render.service_id r env).2 =
      Except.ok rb)
    (ht : trigger_all_deployments r env repo = (ev, Except.ok t)) :
    t.retVal = none ∧
    t.ok_any = ((deploy_to_vercel r env repo).2 || rb || (deploy_to_netlify r env).2) ∧
    ev.countP isInfoMsg = (if t.ok_any then 0 else 1) := by
  rcases hvv : deploy_to_vercel r env repo with ⟨ev1, b1⟩
  rcases hrr : deploy_to_render r.config.hosting_platforms.render.service_id r env
    with ⟨ev2, r2⟩
  rcases hnn : deploy_to_netlify r env with ⟨ev3, b3⟩
  have c1 : ev1.countP isInfoMsg = 0 :=
    countP_info_http (fun e he =>
      vercel_mem (show e ∈ (deploy_to_vercel r env repo).1 by rw [hvv]; exact he))
  have c2 : ev2.countP isInfoMsg = 0 :=
    countP_info_http (fun e he =>
      render_mem (show e ∈ (deploy_to_render _ r env).1 by rw [hrr]; exact he))
  have c3 : ev3.countP isInfoMsg = 0 :=
    countP_info_http (fun e he =>
      netlify_mem (show e ∈ (deploy_to_netlify r env).1 by rw [hnn]; exact he))
  rw [hrr] at hr
  simp only at hr
  subst hr
  have hA : (if truthyB r.config.hosting_platforms.vercel.enabled = true
              then deploy_to_vercel r env repo else ([], false)) =
      ((if truthyB r.config.hosting_platforms.vercel.enabled = true
         then ev1 else []), b1) := by
    cases hv : truthyB r.config.hosting_platforms.vercel.enabled
    · have hd := vercel_disabled r env repo hv
      rw [hvv] at hd
      simp at hd
      simp [hv, hd.2]
    · simp [hv, hvv]
  have hS : (if truthyB r.config.hosting_platforms.render.enabled = true
              then deploy_to_render r.config.hosting_platforms.render.service_id r env
              else ([], Except.ok false)) =
      ((if truthyB r.config.hosting_platforms.render.enabled = true
         then ev2 else []), Except.ok rb) := by
    cases hrt : truthyB r.config.hosting_platforms.render.enabled
    · have hd := render_disabled r.config.hosting_platforms.render.service_id r env hrt
      rw [hrr] at hd
      simp at hd
      simp [hrt, hd.2]
    · simp [hrt, hrr]
  have hN : (if truthyB r.config.hosting_platforms.netlify.enabled = true
              then deploy_to_netlify r env else ([], false)) =
      ((if truthyB r.config.hosting_platforms.netlify.enabled = true
         then ev3 else []), b3) := by
    cases hn : truthyB r.config.hosting_platforms.netlify.enabled
    · have hd := netlify_disabled r env hn
      rw [hnn] at hd
      simp at hd
      simp [hn, hd.2]
    · simp [hn, hnn]
  have k1 : (if truthyB r.config.hosting_platforms.vercel.enabled = true
              then ev1 else []).countP isInfoMsg = 0 := by
    cases hv : truthyB r.config.hosting_platforms.vercel.enabled <;> simp [hv, c1]
  have k2 : (if truthyB r.config.hosting_platforms.render.enabled = true
              then ev2 else []).countP isInfoMsg = 0 := by
    cases hrt : truthyB r.config.hosting_platforms.render.enabled <;> simp [hrt, c2]
  have k3 : (if truthyB r.config.hosting_platforms.netlify.enabled = true
              then ev3 else []).countP isInfoMsg = 0 := by
    cases hn : truthyB r.config.hosting_platforms.netlify.enabled <;> simp [hn, c3]
  simp only [trigger_all_deployments, hA, hS, hN] at ht
  simp only [Prod.mk.injEq, Except.ok.injEq] at ht
  obtain ⟨hev, htv⟩ := ht
  subst hev
  subst htv
  refine ⟨rfl, by simp [hvv, hnn], ?_⟩
  simp only [List.countP_append, k1, k2, k3]
  cases hok : (b1 || rb || b3) <;> simp [hok, isInfoMsg]

/-- C3 witness: the amended statement at the enabled-Vercel configuration. -/
theorem C3_amended_aggregate_or_witness :
    ({ ok_any := true, retVal := none } : TriggerResult).retVal = none ∧
    ({ ok_any := true, retVal := none } : TriggerResult).ok_any =
      ((deploy_to_vercel robotVercelOn envBase "site").2 || false ||
        (deploy_to_netlify robotVercelOn envBase).2) ∧
    ([Event.http { url := "https://vercel.hook", timeout := none }].countP isInfoMsg =
      (if ({ ok_any := true, retVal := none } : TriggerResult).ok_any then 0 else 1)) :=
  C3_amended_aggregate_or robotVercelOn envBase "site"
    [Event.http { url := "https://vercel.hook", timeout := none }]
    { ok_any := true, retVal := none } false (by decide) (by decide)

/-! ### C2 -/

/-- A configuration with Render and Netlify enabled. -/
def cfgRenderNetlify : Config :=
  { hosting_platforms :=
      { vercel := { enabled := some false, deploy_hook_url := some "" },
        render := { enabled := some true, service_id := some "svc" },
        netlify := { enabled := some true, deploy_hook_url := some "https://netlify.hook" } },
    auto_deploy := none,
    default_branch := some "main" }

/-- A robot with Render and Netlify enabled and a Render token set. -/
def robotRenderNetlify : Robot :=
  { github_token := some "ghp_token", github_username := "user",
    config := cfgRenderNetlify, render_token := some "rnd_token" }

/-- An environment where the Render API POST raises a transport-level
exception; every other interaction succeeds. -/
def envRenderDown : RepoEnv :=
  { envBase with renderHttp := Except.error "requests.exceptions.ConnectionError" }

/-- C2: a transport-level exception on the Render trigger propagates out of
`trigger_all_deployments` — the run's whole trace is the single Render POST
and the Netlify trigger is never attempted, contradicting the claim that one
target's failure never prevents the remaining targets. -/
theorem C2_render_exception_blocks_netlify :
    trigger_all_deployments robotRenderNetlify envRenderDown "site" =
      ([Event.http { url := "https://api.render.com/v1/services/svc/deploys",
                     timeout := none }],
       Except.error "requests.exceptions.ConnectionError") := by
  decide

/-! ### C1 -/

/-- Per-repository environments for a three-repository batch in which the
second repository's Render POST raises a transport-level exception. -/
def envOfC1 : String → RepoEnv :=
  fun repo => if repo == "r2" then envRenderDown else envBase

/-- C1: the exception raised while processing the second repository
propagates out of `batch_repository_operation` — the batch aborts with the
exception instead of recording a failure for r2 and processing r3,
contradicting the claim that no exception escapes the batch runner. -/
theorem C1_exception_escapes_batch :
    (batch_repository_operation robotRenderNetlify envOfC1 ["r1", "r2", "r3"]
      "update_and_deploy" [("a.txt", "x")]).2 =
      Except.error "requests.exceptions.ConnectionError" := by
  decide
